import Mathlib

/-!
Shallow embedding of `src/substring.hpp`: the `basic_substring` view type
(a `const charT*` start pointer plus a `size_type` length) together with the
operations described by the specification.  `size_type` is `std::size_t`, a
64-bit unsigned integer, modelled as `Nat` with arithmetic taken modulo
`2 ^ 64` where the C++ code can wrap.  The bounds-check policy
(`Assert::out_of_range_assert`) is modelled by returning, next to the usual
result, the Boolean telling whether the policy's failure branch was taken
(i.e. whether the asserted condition evaluated to false).
-/

namespace substring

/-- Number of values of the C++ `size_type` (`std::size_t`, 64 bits wide). -/
def USIZE : Nat := 2 ^ 64

/-- C++ unsigned subtraction on `size_type`: wraps modulo `2 ^ 64`
(meaningful for arguments below `USIZE`). -/
def usub (a b : Nat) : Nat := (USIZE + a - b) % USIZE

/-- A raw read-only character pointer `const charT*`: null, or an offset
into some live character buffer (the allocation it points into). -/
inductive Ptr where
  | null : Ptr
  | mk (buf : List Char) (off : Nat) : Ptr
  deriving DecidableEq

namespace Ptr

/-- Pointer arithmetic `p + n` (used by `begin() + pos` and `++start`).
Advancing the null pointer is undefined behaviour; it is modelled as null. -/
def add : Ptr → Nat → Ptr
  | null, _ => null
  | mk buf off, n => mk buf (off + n)

/-- Dereference `p[i]`.  A read outside the live buffer (or through null)
is undefined behaviour in C++; the model returns the default character. -/
def read : Ptr → Nat → Char
  | null, _ => default
  | mk buf off, i => buf.getD (off + i) default

/-- The first `n` characters readable starting at `p` (at most what the
buffer actually holds past the offset). -/
def chars : Ptr → Nat → List Char
  | null, _ => []
  | mk buf off, n => (buf.drop off).take n

end Ptr

/-- `basic_substring<charT>`: a start pointer and a length
(`const_pointer start; size_type length;`). -/
structure basic_substring where
  start : Ptr
  length : Nat
  deriving DecidableEq

namespace basic_substring

/-- `static const size_type npos = -1` — the all-ones `size_type` value. -/
def npos : Nat := USIZE - 1

/-- `basic_substring() : start(), length() {}` — null pointer, zero length. -/
def default_ctor : basic_substring := ⟨Ptr.null, 0⟩

/-- `size_type size() const { return length; }` -/
def size (v : basic_substring) : Nat := v.length

/-- `bool empty() const { return length; }` — the `size_type` member
converted to `bool`, i.e. true exactly when `length` is nonzero. -/
def empty (v : basic_substring) : Bool := v.length != 0

/-- `void clear() { length = 0; }` -/
def clear (v : basic_substring) : basic_substring := ⟨v.start, 0⟩

/-- `const charT* data() { return start; }` -/
def data (v : basic_substring) : Ptr := v.start

/-- `void pop_front() { ++start; --length; }` — unchecked; `--length`
wraps around on the unsigned type. -/
def pop_front (v : basic_substring) : basic_substring :=
  ⟨v.start.add 1, usub v.length 1⟩

/-- `void pop_back() { --length; }` — unchecked, wraps on the unsigned type. -/
def pop_back (v : basic_substring) : basic_substring :=
  ⟨v.start, usub v.length 1⟩

/-- `basic_substring(const basic_substring& substring, size_type pos, size_type n)`:
`out_of_range_assert` checks the condition `pos <= substring.size()`, then
`start = substring.begin() + pos; length = std::min(n, size - pos);`.
The second component reports whether the asserted condition failed, i.e.
whether the bounds-check policy's failure branch was taken. -/
def subrange (s : basic_substring) (pos n : Nat) : basic_substring × Bool :=
  (⟨s.start.add pos, min n (usub s.size pos)⟩, !decide (pos ≤ s.size))

/-- `substr(pos, n = npos)` forwards to the sub-range constructor. -/
def substr (v : basic_substring) (pos n : Nat) : basic_substring × Bool :=
  subrange v pos n

/-- `const_reference at(size_type pos) const`: `out_of_range_assert` checks
the condition `pos < size()`, then returns `start[pos]`.  The first
component reports whether the policy's failure branch was taken. -/
def at' (v : basic_substring) (pos : Nat) : Bool × Char :=
  (!decide (pos < v.size), v.start.read pos)

/-- `to_string()`: `std::basic_string<charT, traits>(start, length)` — copies
`length` characters starting at `start` into a fresh owned string. -/
def to_string (v : basic_substring) : List Char := v.start.chars v.length

/-- `basic_substring(const std::basic_string& s) : start(s.data()), length(s.size())`. -/
def of_string (s : List Char) : basic_substring := ⟨Ptr.mk s 0, s.length⟩

/-- Content equality of two views: equal lengths, and the first `length`
characters at both pointers agree — the specification's "equal length and
identical character content", and the evident intent of `operator ==`
(`length == rhs.length() && traits::compare(start, rhs.start, length) == 0`).
Note the source as written is ill-formed there: `rhs.length()`
(substring.hpp line 192) calls the `size_type` data member `length` as a
function, a compile error at every instantiation, so the written
`operator ==` (and `operator !=`, which calls it) has no semantics at all;
this model reads the member, the repair the slip evidently intends. -/
def beq (a b : basic_substring) : Bool :=
  a.length == b.length && a.start.chars a.length == b.start.chars a.length

/-- `operator !=`: `!(*this == rhs)` (unusable in the source for the same
reason as `operator ==`; modelled over the repaired comparison). -/
def bne (a b : basic_substring) : Bool := !a.beq b

/-- The characters the view denotes: `length` characters from `start`. -/
def content (v : basic_substring) : List Char := v.start.chars v.length

/-- The caller-maintained validity invariant of the data model: the range
`start .. start + length` lies inside a single live buffer (and a null
start carries no characters). -/
def wf : basic_substring → Prop
  | ⟨Ptr.null, len⟩ => len = 0
  | ⟨Ptr.mk buf off, len⟩ => off + len ≤ buf.length

instance : (v : basic_substring) → Decidable (wf v)
  | ⟨Ptr.null, len⟩ => inferInstanceAs (Decidable (len = 0))
  | ⟨Ptr.mk buf off, len⟩ => inferInstanceAs (Decidable (off + len ≤ buf.length))

/-- Concrete five-character buffer `"hello"` viewed in full. -/
def vHello : basic_substring := ⟨Ptr.mk ['h', 'e', 'l', 'l', 'o'] 0, 5⟩

/-- Concrete three-character buffer `"abc"` viewed in full. -/
def vABC : basic_substring := ⟨Ptr.mk ['a', 'b', 'c'] 0, 3⟩

/-- Concrete two-character buffer `"ab"` viewed in full. -/
def vAB : basic_substring := ⟨Ptr.mk ['a', 'b'] 0, 2⟩

end basic_substring

theorem usub_eq_sub {a b : Nat} (hba : b ≤ a) (ha : a < USIZE) :
    usub a b = a - b := by
  unfold usub
  rw [Nat.add_sub_assoc hba, Nat.add_mod_left,
    Nat.mod_eq_of_lt (lt_of_le_of_lt (Nat.sub_le a b) ha)]

theorem Ptr.add_zero (p : Ptr) : p.add 0 = p := by
  cases p <;> simp [Ptr.add]

namespace basic_substring

theorem beq_iff (a b : basic_substring) :
    a.beq b = true ↔ a.size = b.size ∧ a.content = b.content := by
  simp only [beq, content, size, Bool.and_eq_true, beq_iff_eq]
  constructor
  · rintro ⟨h1, h2⟩
    exact ⟨h1, by rw [← h1]; exact h2⟩
  · rintro ⟨h1, h2⟩
    exact ⟨h1, by rw [← h1] at h2; exact h2⟩

theorem chars_length (v : basic_substring) (hwf : wf v) :
    (v.start.chars v.length).length = v.length := by
  obtain ⟨s, len⟩ := v
  cases s with
  | null =>
    have h0 : len = 0 := hwf
    simp [Ptr.chars, h0]
  | mk buf off =>
    have hb : off + len ≤ buf.length := hwf
    simp only [Ptr.chars, List.length_take, List.length_drop]
    omega

/-- Claim C1: the spec requires `empty()` to be true exactly when
`size() == 0`; the code (`return length;`) returns the exact inversion: on
the default-constructed view (size 0) `empty()` reads `false`, and in
general `empty()` is true iff the size is nonzero. -/
theorem empty_inverted :
    default_ctor.empty = false ∧
      ∀ v : basic_substring, (v.empty = true ↔ v.size ≠ 0) := by
  refine ⟨rfl, fun v => ?_⟩
  simp [empty, size]

/-- Claim C2: for `pos ≤ size`, `substr(pos, n)` produces a view of length
`min n (size - pos)`; in particular when `pos + n` exceeds the size, the
resulting length is exactly `size - pos` (clamp law). -/
theorem substr_clamp (v : basic_substring) (pos n : Nat)
    (hpos : pos ≤ v.size) (hsz : v.size < USIZE) :
    (v.substr pos n).1.size = min n (v.size - pos) ∧
    (v.size < pos + n → (v.substr pos n).1.size = v.size - pos) := by
  have hpos' : pos ≤ v.length := hpos
  have hsz' : v.length < USIZE := hsz
  have h1 : (v.substr pos n).1.size = min n (v.size - pos) := by
    simp [substr, subrange, size, usub_eq_sub hpos' hsz']
  refine ⟨h1, fun hover => ?_⟩
  rw [h1, Nat.min_eq_right (by omega)]

/-- Witness for `substr_clamp`: `"hello"` (size 5), `pos = 1`, `n = 100`
clamps to length 4. -/
theorem substr_clamp_witness :
    (vHello.substr 1 100).1.size = min 100 (vHello.size - 1) ∧
    (vHello.size < 1 + 100 → (vHello.substr 1 100).1.size = vHello.size - 1) :=
  substr_clamp vHello 1 100 (by decide) (by decide)

/-- Claim C3: the sub-range construction (`substr`) takes the bounds-check
policy's failure branch exactly when `pos > size`; for `pos ≤ size` the
failure branch is not taken. -/
theorem substr_policy_iff (v : basic_substring) (pos n : Nat) :
    (v.substr pos n).2 = true ↔ v.size < pos := by
  simp [substr, subrange, size, Nat.not_le]

/-- Claim C4: `at(pos)` takes the bounds-check policy's failure branch
exactly when `pos ≥ size`; for `pos < size` on a well-formed view it
returns the character at position `pos` of the viewed range. -/
theorem at_bounds (v : basic_substring) (pos : Nat) (hwf : wf v) :
    ((v.at' pos).1 = true ↔ v.size ≤ pos) ∧
    (pos < v.size → (v.at' pos).2 = v.content.getD pos default) := by
  constructor
  · simp [at', size, Nat.not_lt]
  · intro hlt
    obtain ⟨s, len⟩ := v
    cases s with
    | null =>
      have h0 : len = 0 := hwf
      have hlt' : pos < len := hlt
      exact absurd hlt' (by omega)
    | mk buf off =>
      have hb : off + len ≤ buf.length := hwf
      have hpl : pos < len := hlt
      show buf.getD (off + pos) default
          = ((buf.drop off).take len).getD pos default
      have h1 : off + pos < buf.length := by omega
      have h2 : pos < ((buf.drop off).take len).length := by
        simp only [List.length_take, List.length_drop]
        omega
      rw [List.getD_eq_getElem _ _ h1, List.getD_eq_getElem _ _ h2]
      simp [List.getElem_take, List.getElem_drop]

/-- Witness for `at_bounds` on `"abc"`: `at(5)` trips the policy and
`at(1)` yields `'b'`. -/
theorem at_bounds_witness :
    (vABC.at' 5).1 = true ∧ (vABC.at' 1).2 = 'b' := by
  refine ⟨(at_bounds vABC 5 (by decide)).1.mpr (by decide), ?_⟩
  rw [(at_bounds vABC 1 (by decide)).2 (by decide)]
  decide

/-- Claim C5, settled as a code bug: the written `operator==` never
compiles — `rhs.length()` (substring.hpp line 192) calls the `size_type`
data member as a function, ill-formed at every instantiation, and
`operator!=` calls `==`, so neither comparison is usable at all, contrary
to the claim.  This theorem shows the claim is the evident intent: under
the member-read repair, equality is content equality — true iff equal
lengths and identical characters — hence reflexive on every view
(including distinct views over distinct byte-identical buffers), and
`operator!=` is its negation. -/
theorem eq_content (a b : basic_substring) :
    (a.beq b = true ↔ a.size = b.size ∧ a.content = b.content) ∧
    a.beq a = true ∧ a.bne b = !a.beq b :=
  ⟨beq_iff a b, (beq_iff a a).mpr ⟨rfl, rfl⟩, rfl⟩

/-- Claim C6: on a 2-character view, `pop_front` then `pop_back` leaves
`size() == 0` — but the code's `empty()` (`return length;`) then reads
`false`, contradicting the claim's required `true`. -/
theorem pop_pair_empty_bug (v : basic_substring) (h : v.size = 2) :
    (v.pop_front.pop_back).size = 0 ∧ (v.pop_front.pop_back).empty = false := by
  have h2 : v.length = 2 := h
  have e1 : usub 2 1 = 1 := by decide
  have e2 : usub 1 1 = 0 := by decide
  simp [pop_front, pop_back, size, empty, h2, e1, e2]

/-- Witness for `pop_pair_empty_bug` on the 2-character view `"ab"`. -/
theorem pop_pair_empty_bug_witness :
    (vAB.pop_front.pop_back).size = 0 ∧ (vAB.pop_front.pop_back).empty = false :=
  pop_pair_empty_bug vAB rfl

/-- Claim C7: `to_string` copies exactly `size()` characters, and wrapping
the copy back as a view gives a view equal to the original by content. -/
theorem to_string_roundtrip (v : basic_substring) (hwf : wf v) :
    (of_string v.to_string).beq v = true ∧ v.to_string.length = v.size := by
  have hlen : v.to_string.length = v.length := chars_length v hwf
  refine ⟨?_, hlen⟩
  rw [beq_iff]
  refine ⟨?_, ?_⟩
  · show v.to_string.length = v.size
    exact hlen
  · show (Ptr.mk v.to_string 0).chars v.to_string.length = v.content
    simp [Ptr.chars, to_string, content]

/-- Witness for `to_string_roundtrip` on the view over `"abc"`. -/
theorem to_string_roundtrip_witness :
    (of_string vABC.to_string).beq vABC = true ∧
      vABC.to_string.length = vABC.size :=
  to_string_roundtrip vABC (by decide)

/-- Claim C8: `substr(0, size())` reproduces the view — equal by content,
and of equal size. -/
theorem substr_full (v : basic_substring) (hsz : v.size < USIZE) :
    (v.substr 0 v.size).1.beq v = true ∧ (v.substr 0 v.size).1.size = v.size := by
  have hsz' : v.length < USIZE := hsz
  have husub : usub v.length 0 = v.length := by
    unfold usub
    rw [Nat.sub_zero, Nat.add_mod_left, Nat.mod_eq_of_lt hsz']
  refine ⟨?_, ?_⟩
  · rw [beq_iff]
    constructor
    · simp [substr, subrange, size, husub]
    · simp [substr, subrange, content, size, husub, Ptr.add_zero]
  · simp [substr, subrange, size, husub]

/-- Witness for `substr_full` on the view over `"hello"`. -/
theorem substr_full_witness :
    (vHello.substr 0 vHello.size).1.beq vHello = true ∧
    (vHello.substr 0 vHello.size).1.size = vHello.size :=
  substr_full vHello (by decide)

/-- Claim C9: `clear` zeroes the length, keeps `start` untouched, and on an
already empty view changes nothing at all. -/
theorem clear_spec (v : basic_substring) :
    v.clear.size = 0 ∧ v.clear.start = v.start ∧ (v.size = 0 → v.clear = v) := by
  refine ⟨rfl, rfl, fun h0 => ?_⟩
  obtain ⟨s, len⟩ := v
  have hl : len = 0 := h0
  simp [clear, hl]

/-- Witness for `clear_spec`: clearing the default (empty) view is a no-op. -/
theorem clear_spec_witness : default_ctor.clear = default_ctor :=
  (clear_spec default_ctor).2.2 rfl

/-- Claim C10: the default constructor yields size 0 and a null `data()`
pointer. -/
theorem default_ctor_null :
    default_ctor.size = 0 ∧ default_ctor.data = Ptr.null :=
  ⟨rfl, rfl⟩

end basic_substring

end substring
